import Mathlib

/-! Verification of the completion adapter in `python-ollm-wrapper/main.py`.

The adapter exposes one operation, `create_chat_completion`, which projects
the request messages into conversation lines, invokes an external text
generator, and returns either a non-streaming JSON envelope or a list of
server-sent-event frames.  We embed the handler as a pure function of
(a) a clock, indexing the successive `time.time()` readings made while
handling one request, (b) the external generator, modelled as a black-box
function from model name and prompt lines to either an error message or a
finite fragment list (the contract stated by the spec: an iterable of
string fragments, independent of the stream flag), and (c) the request.
-/

/-- A JSON value, as built by the dict literals of the handler. -/
inductive Json where
  | null : Json
  | str : String → Json
  | num : Int → Json
  | arr : List Json → Json
  | obj : List (String × Json) → Json

/-- One hex digit, lowercase, as produced by the `%04x` formatting of
Python. -/
def hexDigit (n : Nat) : Char :=
  if n < 10 then Char.ofNat (48 + n) else Char.ofNat (87 + n)

/-- Four lowercase hex digits for a `\uXXXX` escape. -/
def hex4 (n : Nat) : String :=
  String.mk [hexDigit (n / 4096 % 16), hexDigit (n / 256 % 16),
             hexDigit (n / 16 % 16), hexDigit (n % 16)]

/-- Escape one character the way `json.dumps` (default `ensure_ascii=True`)
does: named escapes for quote, backslash and common control characters,
`\uXXXX` (with surrogate pairs) for other controls and all non-ASCII, and
the character itself for printable ASCII. -/
def escapeChar (c : Char) : String :=
  let n := c.toNat
  if c = '"' then "\\\""
  else if c = '\\' then "\\\\"
  else if n = 8 then "\\b"
  else if n = 9 then "\\t"
  else if n = 10 then "\\n"
  else if n = 12 then "\\f"
  else if n = 13 then "\\r"
  else if n < 32 ∨ n > 126 then
    if n < 65536 then "\\u" ++ hex4 n
    else
      "\\u" ++ hex4 (55296 + (n - 65536) / 1024) ++ "\\u" ++ hex4 (56320 + (n - 65536) % 1024)
  else String.singleton c

/-- Escape a string for a JSON string literal. -/
def escapeString (s : String) : String :=
  String.join (s.data.map escapeChar)

mutual
/-- Serialization exactly as `json.dumps` with its default separators
(a comma-space between items, a colon-space after keys). -/
def Json.dumps : Json → String
  | .null => "null"
  | .str s => "\"" ++ escapeString s ++ "\""
  | .num n => toString n
  | .arr l => "[" ++ String.intercalate ", " (dumpsList l) ++ "]"
  | .obj l => "\x7b" ++ String.intercalate ", " (dumpsObjList l) ++ "\x7d"

/-- Serialize the elements of a JSON array. -/
def dumpsList : List Json → List String
  | [] => []
  | j :: js => Json.dumps j :: dumpsList js

/-- Serialize the key/value pairs of a JSON object. -/
def dumpsObjList : List (String × Json) → List String
  | [] => []
  | (k, v) :: kvs => ("\"" ++ escapeString k ++ "\": " ++ Json.dumps v) :: dumpsObjList kvs
end

/-- Field access on a JSON object (`none` on a non-object or missing key). -/
def Json.getField (j : Json) (k : String) : Option Json :=
  match j with
  | .obj kvs => kvs.lookup k
  | _ => none

/-- One reading of `time.time()`: `repr` is what `str(t)` returns, `floor`
is what `int(t)` returns, for the same underlying float. -/
structure TimeVal where
  repr : String
  floor : Int

/-- The clock of one request: the value of the i-th `time.time()` call
made while handling that request. -/
def Clock := Nat → TimeVal

/-- The external generator `ollm.generate`, under the black-box contract
the spec states for it: given the model name and the prompt lines it
either raises (with the text of the exception as the message) or produces
a finite sequence of string fragments, independently of the stream flag. -/
def Gen := String → List String → Except String (List String)

/-- The request schema (`ChatCompletionRequest` in `main.py`): each message
is a string-keyed dict, embedded as an association list. -/
structure ChatCompletionRequest where
  model : String
  messages : List (List (String × String))
  stream : Bool := false

/-- Formatting of one message into its conversation line, as the handler
interpolates it: Python looks up the role entry first — a missing key
raises a KeyError whose text is the key name wrapped in single quotation
marks (here written with `\x27` escapes) — then the content entry, and
joins them with a colon and a space. -/
def formatMessage (m : List (String × String)) : Except String String :=
  match m.lookup "role" with
  | none => Except.error "\x27role\x27"
  | some r =>
    match m.lookup "content" with
    | none => Except.error "\x27content\x27"
    | some c => Except.ok (r ++ ": " ++ c)

/-- The message-formatting list comprehension of the handler: formats each
message in order, propagating the first KeyError. -/
def formatConversation : List (List (String × String)) → Except String (List String)
  | [] => Except.ok []
  | m :: ms =>
    match formatMessage m with
    | Except.error e => Except.error e
    | Except.ok line =>
      match formatConversation ms with
      | Except.error e => Except.error e
      | Except.ok rest => Except.ok (line :: rest)

/-- Identifier generation: Python joins the pieces of `str(time.time())`
split on the dot, so each record id is the fixed prefix `chatcmpl-`
followed by the time reading with every dot removed. -/
def mkId (t : TimeVal) : String :=
  "chatcmpl-" ++ String.join (t.repr.splitOn ".")

/-- The per-fragment `response_chunk` dict built in the streaming loop;
`t1` is the `time.time()` reading taken for `id`, `t2` the one taken for
`created`. -/
def response_chunk (t1 t2 : TimeVal) (model frag : String) : Json :=
  Json.obj [
    ("id", Json.str (mkId t1)),
    ("object", Json.str "chat.completion.chunk"),
    ("created", Json.num t2.floor),
    ("model", Json.str model),
    ("choices", Json.arr [Json.obj [
      ("index", Json.num 0),
      ("delta", Json.obj [("content", Json.str frag)]),
      ("finish_reason", Json.null)]])]

/-- The `final_chunk` dict emitted after the loop: empty delta,
finish reason `"stop"`. -/
def final_chunk (t1 t2 : TimeVal) (model : String) : Json :=
  Json.obj [
    ("id", Json.str (mkId t1)),
    ("object", Json.str "chat.completion.chunk"),
    ("created", Json.num t2.floor),
    ("model", Json.str model),
    ("choices", Json.arr [Json.obj [
      ("index", Json.num 0),
      ("delta", Json.obj []),
      ("finish_reason", Json.str "stop")]])]

/-- The chunks built by the `for chunk in response_generator` loop, starting
at chunk index `k`: the k-th chunk consumes clock readings `2*k` (for its
`id`) and `2*k + 1` (for its `created`). -/
def fragmentChunks (clock : Clock) (model : String) : Nat → List String → List Json
  | _, [] => []
  | k, frag :: rest =>
    response_chunk (clock (2 * k)) (clock (2 * k + 1)) model frag ::
      fragmentChunks clock model (k + 1) rest

/-- All chunk records produced by `stream_response`: one per fragment, then
the final chunk (whose two readings follow those of the loop). -/
def streamChunks (clock : Clock) (model : String) (frags : List String) : List Json :=
  fragmentChunks clock model 0 frags ++
    [final_chunk (clock (2 * frags.length)) (clock (2 * frags.length + 1)) model]

/-- One server-sent-event frame as the handler yields it: the data prefix,
the `json.dumps` body, and the blank-line terminator. -/
def dataFrame (j : Json) : String :=
  "data: " ++ Json.dumps j ++ "\n\n"

/-- The literal end-of-stream sentinel frame. -/
def doneFrame : String := "data: [DONE]\n\n"

/-- The full sequence of frames yielded by `stream_response`: one data frame
per chunk record, then the sentinel. -/
def stream_response (clock : Clock) (model : String) (frags : List String) : List String :=
  (streamChunks clock model frags).map dataFrame ++ [doneFrame]

/-- The non-streaming response dict: `t1` is the reading for `id`, `t2` the
one for `created`, `content` the joined fragments. -/
def response_envelope (t1 t2 : TimeVal) (model content : String) : Json :=
  Json.obj [
    ("id", Json.str (mkId t1)),
    ("object", Json.str "chat.completion"),
    ("created", Json.num t2.floor),
    ("model", Json.str model),
    ("choices", Json.arr [Json.obj [
      ("index", Json.num 0),
      ("message", Json.obj [
        ("role", Json.str "assistant"),
        ("content", Json.str content)]),
      ("finish_reason", Json.str "stop")]]),
    ("usage", Json.obj [
      ("prompt_tokens", Json.num 0),
      ("completion_tokens", Json.num 0),
      ("total_tokens", Json.num 0)])]

/-- What the endpoint hands back to the transport: an event stream, a JSON
envelope, or an HTTP error status with a detail string. -/
inductive Response where
  | stream : List String → Response
  | envelope : Json → Response
  | error : Nat → String → Response

/-- Modelled from the spec: FastAPI renders `HTTPException(500, detail)` as
a JSON body holding the detail string under the `detail` key (spec section
6, failure response); the rendering itself lives in the framework, not in
`main.py`. -/
def errorBody (detail : String) : Json :=
  Json.obj [("detail", Json.str detail)]

/-- The handler `create_chat_completion`: project the messages, invoke the
generator, then branch on the stream flag; any failure raised inside the
guarded block becomes a 500 whose detail is the text of the exception. -/
def create_chat_completion (clock : Clock) (generate : Gen)
    (req : ChatCompletionRequest) : Response :=
  match formatConversation req.messages with
  | Except.error e => Response.error 500 e
  | Except.ok conversation =>
    match generate req.model conversation with
    | Except.error e => Response.error 500 e
    | Except.ok frags =>
      if req.stream then
        Response.stream (stream_response clock req.model frags)
      else
        Response.envelope
          (response_envelope (clock 0) (clock 1) req.model (String.join frags))

/-- The first entry of the `choices` array of a record. -/
def firstChoice (j : Json) : Option Json :=
  match j.getField "choices" with
  | some (Json.arr (c :: _)) => some c
  | _ => none

/-- The length of the `choices` array of a record. -/
def choicesLength (j : Json) : Option Nat :=
  match j.getField "choices" with
  | some (Json.arr l) => some l.length
  | _ => none

/-- The `index` field of the first choice. -/
def choiceIndex (j : Json) : Option Json :=
  (firstChoice j).bind (·.getField "index")

/-- The `finish_reason` field of the first choice. -/
def finishReason (j : Json) : Option Json :=
  (firstChoice j).bind (·.getField "finish_reason")

/-- The `delta` object of the first choice of a streaming chunk. -/
def deltaObj (j : Json) : Option Json :=
  (firstChoice j).bind (·.getField "delta")

/-- The `delta.content` string of a streaming chunk. -/
def deltaContent (j : Json) : Option String :=
  match (deltaObj j).bind (·.getField "content") with
  | some (Json.str s) => some s
  | _ => none

/-- The `message` object of the first choice of an envelope. -/
def messageObj (j : Json) : Option Json :=
  (firstChoice j).bind (·.getField "message")

/-- The `message.content` string of an envelope. -/
def messageContent (j : Json) : Option String :=
  match (messageObj j).bind (·.getField "content") with
  | some (Json.str s) => some s
  | _ => none

/-- The `message.role` string of an envelope. -/
def messageRole (j : Json) : Option String :=
  match (messageObj j).bind (·.getField "role") with
  | some (Json.str s) => some s
  | _ => none

/-- The `id` string of a record. -/
def idOf (j : Json) : Option String :=
  match j.getField "id" with
  | some (Json.str s) => some s
  | _ => none

/-- The `object` tag of a record. -/
def objectTag (j : Json) : Option Json :=
  j.getField "object"

/-- The `model` field of a record. -/
def modelOf (j : Json) : Option Json :=
  j.getField "model"

/-- One counter of the `usage` block of an envelope. -/
def usageField (j : Json) (k : String) : Option Json :=
  (j.getField "usage").bind (·.getField k)

/-- A per-fragment frame: a data-prefixed JSON body with a blank-line
terminator whose chunk has object tag `"chat.completion.chunk"`, a null
finish reason, and delta content equal to the fragment. -/
def FragmentFrame (frag frame : String) : Prop :=
  ∃ c : Json, frame = dataFrame c ∧
    objectTag c = some (Json.str "chat.completion.chunk") ∧
    finishReason c = some Json.null ∧
    deltaContent c = some frag

/-- The terminal frame: a data-prefixed JSON body with a blank-line
terminator whose chunk has an empty delta and finish reason `"stop"`. -/
def TerminalFrame (frame : String) : Prop :=
  ∃ c : Json, frame = dataFrame c ∧
    objectTag c = some (Json.str "chat.completion.chunk") ∧
    deltaObj c = some (Json.obj []) ∧
    finishReason c = some (Json.str "stop")

/-- The frame protocol of claim C1 for a fragment list `frags`: exactly
`frags.length + 2` frames — for position `i` a fragment frame carrying
the i-th fragment, at position `frags.length` the terminal frame, and last
the literal sentinel frame. -/
def FramesSpec (frags frames : List String) : Prop :=
  frames.length = frags.length + 2 ∧
  (∀ (i : Nat) (f : String), frags[i]? = some f →
    ∃ frame, frames[i]? = some frame ∧ FragmentFrame f frame) ∧
  (∃ frame, frames[frags.length]? = some frame ∧ TerminalFrame frame) ∧
  frames[frags.length + 1]? = some doneFrame

/-- A fixed clock for concrete instantiations. -/
def testClock : Clock := fun i => ⟨"1700." ++ toString i, 1700⟩

/-- A generator that yields the two fragments `"Hi"` and `" there"`. -/
def wGen1 : Gen := fun _ _ => Except.ok ["Hi", " there"]

/-- A concrete streaming request. -/
def wReq1 : ChatCompletionRequest :=
  ⟨"llama", [[("role", "user"), ("content", "Hello")]], true⟩

/-- A concrete non-streaming request. -/
def wReq3 : ChatCompletionRequest :=
  ⟨"llama", [[("role", "user"), ("content", "Hello")]], false⟩

/-- A generator that raises. -/
def wGenErr : Gen := fun _ _ => Except.error "model not found"

/-- Sequential processing of a batch of independent requests, each carrying
its own clock and generator: `main.py` holds no module-level mutable state,
so a run of the endpoint is just the handler applied to each request. -/
def handleAll (l : List (Clock × Gen × ChatCompletionRequest)) : List Response :=
  l.map fun x => create_chat_completion x.1 x.2.1 x.2.2

/-- A concrete request instance for the statelessness witness. -/
def wInst : Clock × Gen × ChatCompletionRequest := (testClock, wGen1, wReq1)

/-- A second, different request instance preceding `wInst` in the second
batch. -/
def wInstErr : Clock × Gen × ChatCompletionRequest := (testClock, wGenErr, wReq3)

lemma objectTag_response_chunk (t1 t2 : TimeVal) (model frag : String) :
    objectTag (response_chunk t1 t2 model frag) = some (Json.str "chat.completion.chunk") := rfl

lemma finishReason_response_chunk (t1 t2 : TimeVal) (model frag : String) :
    finishReason (response_chunk t1 t2 model frag) = some Json.null := rfl

lemma deltaContent_response_chunk (t1 t2 : TimeVal) (model frag : String) :
    deltaContent (response_chunk t1 t2 model frag) = some frag := rfl

lemma idOf_response_chunk (t1 t2 : TimeVal) (model frag : String) :
    idOf (response_chunk t1 t2 model frag) = some (mkId t1) := rfl

lemma objectTag_final_chunk (t1 t2 : TimeVal) (model : String) :
    objectTag (final_chunk t1 t2 model) = some (Json.str "chat.completion.chunk") := rfl

lemma finishReason_final_chunk (t1 t2 : TimeVal) (model : String) :
    finishReason (final_chunk t1 t2 model) = some (Json.str "stop") := rfl

lemma deltaObj_final_chunk (t1 t2 : TimeVal) (model : String) :
    deltaObj (final_chunk t1 t2 model) = some (Json.obj []) := rfl

lemma idOf_final_chunk (t1 t2 : TimeVal) (model : String) :
    idOf (final_chunk t1 t2 model) = some (mkId t1) := rfl

lemma messageContent_response_envelope (t1 t2 : TimeVal) (model content : String) :
    messageContent (response_envelope t1 t2 model content) = some content := rfl

lemma idOf_response_envelope (t1 t2 : TimeVal) (model content : String) :
    idOf (response_envelope t1 t2 model content) = some (mkId t1) := rfl

lemma objectTag_response_envelope (t1 t2 : TimeVal) (model content : String) :
    objectTag (response_envelope t1 t2 model content) = some (Json.str "chat.completion") := rfl

lemma finishReason_response_envelope (t1 t2 : TimeVal) (model content : String) :
    finishReason (response_envelope t1 t2 model content) = some (Json.str "stop") := rfl

lemma fragmentChunks_length (clock : Clock) (model : String) :
    ∀ (frags : List String) (k : Nat),
      (fragmentChunks clock model k frags).length = frags.length := by
  intro frags
  induction frags with
  | nil => intro k; simp [fragmentChunks]
  | cons f fs ih => intro k; simp [fragmentChunks, ih]

lemma fragmentChunks_getElem? (clock : Clock) (model : String) :
    ∀ (frags : List String) (k i : Nat),
      (fragmentChunks clock model k frags)[i]? =
        (frags[i]?).map fun f =>
          response_chunk (clock (2 * (k + i))) (clock (2 * (k + i) + 1)) model f := by
  intro frags
  induction frags with
  | nil => intro k i; simp [fragmentChunks]
  | cons f fs ih =>
    intro k i
    cases i with
    | zero => simp [fragmentChunks]
    | succ i =>
      have h : k + 1 + i = k + (i + 1) := by omega
      simpa [fragmentChunks, h] using ih (k + 1) i

lemma filterMap_deltaContent_fragmentChunks (clock : Clock) (model : String) :
    ∀ (frags : List String) (k : Nat),
      (fragmentChunks clock model k frags).filterMap deltaContent = frags := by
  intro frags
  induction frags with
  | nil => intro k; simp [fragmentChunks]
  | cons f fs ih =>
    intro k
    simp [fragmentChunks, List.filterMap_cons, deltaContent_response_chunk, ih]

lemma stream_response_eq (clock : Clock) (model : String) (frags : List String) :
    stream_response clock model frags =
      (fragmentChunks clock model 0 frags).map dataFrame ++
        [dataFrame (final_chunk (clock (2 * frags.length))
            (clock (2 * frags.length + 1)) model), doneFrame] := by
  simp [stream_response, streamChunks]

lemma framesSpec_stream_response (clock : Clock) (model : String) (frags : List String) :
    FramesSpec frags (stream_response clock model frags) := by
  rw [stream_response_eq]
  have hX : ((fragmentChunks clock model 0 frags).map dataFrame).length = frags.length := by
    simp [fragmentChunks_length]
  refine ⟨?_, ?_, ?_, ?_⟩
  · simp [fragmentChunks_length]
  · intro i f hf
    have hi : i < frags.length := by
      rcases Nat.lt_or_ge i frags.length with h | h
      · exact h
      · rw [List.getElem?_eq_none h] at hf; cases hf
    refine ⟨dataFrame (response_chunk (clock (2 * i)) (clock (2 * i + 1)) model f), ?_, ?_⟩
    · rw [List.getElem?_append_left (by simpa [hX] using hi)]
      simp [List.getElem?_map, fragmentChunks_getElem?, hf]
    · exact ⟨_, rfl, objectTag_response_chunk _ _ _ _,
        finishReason_response_chunk _ _ _ _, deltaContent_response_chunk _ _ _ _⟩
  · refine ⟨dataFrame (final_chunk (clock (2 * frags.length))
        (clock (2 * frags.length + 1)) model), ?_, ?_⟩
    · rw [List.getElem?_append_right (le_of_eq hX)]
      simp [hX]
    · exact ⟨_, rfl, objectTag_final_chunk _ _ _,
        deltaObj_final_chunk _ _ _, finishReason_final_chunk _ _ _⟩
  · rw [List.getElem?_append_right (by omega)]
    simp [hX]

lemma dropLast_streamChunks (clock : Clock) (model : String) (frags : List String) :
    (streamChunks clock model frags).dropLast = fragmentChunks clock model 0 frags := by
  simp [streamChunks]

lemma formatConversation_ok : ∀ ms : List (List (String × String)),
    (∀ m ∈ ms, (m.lookup "role").isSome ∧ (m.lookup "content").isSome) →
    formatConversation ms = Except.ok (ms.map fun m =>
      ((m.lookup "role").getD "") ++ ": " ++ ((m.lookup "content").getD "")) := by
  intro ms
  induction ms with
  | nil => intro _; rfl
  | cons m ms ih =>
    intro h
    have hm := h m (List.mem_cons_self m ms)
    obtain ⟨r, hr⟩ := Option.isSome_iff_exists.mp hm.1
    obtain ⟨c, hcm⟩ := Option.isSome_iff_exists.mp hm.2
    have hrest := ih fun x hx => h x (List.mem_cons_of_mem m hx)
    simp [formatConversation, formatMessage, hr, hcm, hrest]

lemma streamChunks_idOf (clock : Clock) (model : String) (frags : List String)
    (k : Nat) (c : Json) (h : (streamChunks clock model frags)[k]? = some c) :
    idOf c = some (mkId (clock (2 * k))) := by
  unfold streamChunks at h
  rcases Nat.lt_or_ge k frags.length with hk | hk
  · rw [List.getElem?_append_left
      (by simpa [fragmentChunks_length] using hk)] at h
    rw [fragmentChunks_getElem?] at h
    cases hf : frags[k]? with
    | none => rw [hf] at h; cases h
    | some f =>
      rw [hf] at h
      simp only [Option.map_some', Option.some.injEq] at h
      rw [← h]
      simp [idOf_response_chunk]
  · rw [List.getElem?_append_right
      (by simpa [fragmentChunks_length] using hk)] at h
    have hkn : k = frags.length := by
      by_contra hne
      have h1 : 1 ≤ k - (fragmentChunks clock model 0 frags).length := by
        rw [fragmentChunks_length]; omega
      rw [List.getElem?_eq_none (by simpa using h1)] at h
      cases h
    subst hkn
    rw [fragmentChunks_length] at h
    simp only [Nat.sub_self, List.getElem?_cons_zero, Option.some.injEq] at h
    rw [← h]
    simp [idOf_final_chunk]

lemma formatConversation_error_of_malformed :
    ∀ ms : List (List (String × String)),
      (∃ m ∈ ms, (m.lookup "role").isNone ∨ (m.lookup "content").isNone) →
      ∃ d, formatConversation ms = Except.error d ∧
        (d = "\x27role\x27" ∨ d = "\x27content\x27") := by
  intro ms
  induction ms with
  | nil => rintro ⟨m, hm, _⟩; cases hm
  | cons m ms ih =>
    rintro ⟨m', hm', hbad⟩
    rcases List.mem_cons.mp hm' with rfl | hmem
    · cases hrr : m'.lookup "role" with
      | none =>
        exact ⟨"\x27role\x27", by simp [formatConversation, formatMessage, hrr],
          Or.inl rfl⟩
      | some r =>
        have hcn : m'.lookup "content" = none := by
          rcases hbad with hb | hb
          · rw [hrr] at hb; cases hb
          · exact Option.isNone_iff_eq_none.mp hb
        exact ⟨"\x27content\x27",
          by simp [formatConversation, formatMessage, hrr, hcn], Or.inr rfl⟩
    · obtain ⟨d, hd, hdk⟩ := ih ⟨m', hmem, hbad⟩
      cases hm : formatMessage m with
      | error e =>
        refine ⟨e, by simp [formatConversation, hm], ?_⟩
        unfold formatMessage at hm
        cases hr2 : m.lookup "role" with
        | none => rw [hr2] at hm; exact Or.inl (Except.error.inj hm).symm
        | some r =>
          rw [hr2] at hm
          cases hc2 : m.lookup "content" with
          | none => rw [hc2] at hm; exact Or.inr (Except.error.inj hm).symm
          | some c => rw [hc2] at hm; cases hm
      | ok line => exact ⟨d, by simp [formatConversation, hm, hd], hdk⟩

/-- C1. For every valid streaming request whose generator produces the
fragment sequence f1 ... fn, `create_chat_completion` emits exactly n + 2
server-sent-event frames in this exact order: for each fragment, in the
order of the generator, one chunk with object tag `"chat.completion.chunk"`,
null finish reason and delta content equal to that fragment; then exactly
one terminal chunk with empty delta and finish reason `"stop"`; then one
literal sentinel frame; each frame formatted as a data-prefixed line with a
JSON body and a blank-line terminator (see `FramesSpec`). -/
theorem streaming_frame_protocol (clock : Clock) (generate : Gen)
    (req : ChatCompletionRequest) (conv frags : List String)
    (hs : req.stream = true)
    (hc : formatConversation req.messages = Except.ok conv)
    (hg : generate req.model conv = Except.ok frags) :
    ∃ frames : List String,
      create_chat_completion clock generate req = Response.stream frames ∧
      FramesSpec frags frames := by
  refine ⟨stream_response clock req.model frags, ?_,
    framesSpec_stream_response clock req.model frags⟩
  simp [create_chat_completion, hc, hg, hs]

/-- Witness for C1 at a concrete streaming request with two fragments. -/
theorem streaming_frame_protocol_witness :
    wReq1.stream = true ∧
    formatConversation wReq1.messages = Except.ok ["user: Hello"] ∧
    wGen1 wReq1.model ["user: Hello"] = Except.ok ["Hi", " there"] ∧
    ∃ frames : List String,
      create_chat_completion testClock wGen1 wReq1 = Response.stream frames ∧
      FramesSpec ["Hi", " there"] frames :=
  ⟨rfl, rfl, rfl,
    streaming_frame_protocol testClock wGen1 wReq1 ["user: Hello"] ["Hi", " there"]
      rfl rfl rfl⟩

/-- C2. For every request and every generator fragment sequence,
concatenating the delta content fields of all non-terminal chunks emitted
by the streaming path, in emission order, equals the message content the
non-streaming path produces for the same fragment sequence — the two
delivery modes agree on the total generated text (even under different
clocks). -/
theorem modes_agree_on_content (clockS clockN : Clock) (generate : Gen)
    (model : String) (messages : List (List (String × String)))
    (conv frags : List String)
    (hc : formatConversation messages = Except.ok conv)
    (hg : generate model conv = Except.ok frags) :
    ∃ (chunks : List Json) (env : Json),
      create_chat_completion clockS generate ⟨model, messages, true⟩ =
        Response.stream (chunks.map dataFrame ++ [doneFrame]) ∧
      create_chat_completion clockN generate ⟨model, messages, false⟩ =
        Response.envelope env ∧
      messageContent env =
        some (String.join (chunks.dropLast.filterMap deltaContent)) := by
  refine ⟨streamChunks clockS model frags,
    response_envelope (clockN 0) (clockN 1) model (String.join frags), ?_, ?_, ?_⟩
  · simp [create_chat_completion, hc, hg, stream_response]
  · simp [create_chat_completion, hc, hg]
  · rw [dropLast_streamChunks, filterMap_deltaContent_fragmentChunks]
    exact messageContent_response_envelope _ _ _ _

/-- Witness for C2 at a concrete request with two fragments. -/
theorem modes_agree_on_content_witness :
    formatConversation [[("role", "user"), ("content", "Hello")]] =
      Except.ok ["user: Hello"] ∧
    wGen1 "llama" ["user: Hello"] = Except.ok ["Hi", " there"] ∧
    ∃ (chunks : List Json) (env : Json),
      create_chat_completion testClock wGen1
          ⟨"llama", [[("role", "user"), ("content", "Hello")]], true⟩ =
        Response.stream (chunks.map dataFrame ++ [doneFrame]) ∧
      create_chat_completion testClock wGen1
          ⟨"llama", [[("role", "user"), ("content", "Hello")]], false⟩ =
        Response.envelope env ∧
      messageContent env =
        some (String.join (chunks.dropLast.filterMap deltaContent)) :=
  ⟨rfl, rfl,
    modes_agree_on_content testClock testClock wGen1 "llama"
      [[("role", "user"), ("content", "Hello")]] ["user: Hello"] ["Hi", " there"]
      rfl rfl⟩

/-- C3. For every valid non-streaming request, the returned envelope has
object tag `"chat.completion"`, its model field equals the model of the
request, its choices list has exactly one entry (index 0, an
assistant-role message, finish reason `"stop"`), and its usage block has
prompt_tokens, completion_tokens and total_tokens all equal to 0. -/
theorem nonstreaming_envelope_shape (clock : Clock) (generate : Gen)
    (req : ChatCompletionRequest) (conv frags : List String)
    (hs : req.stream = false)
    (hc : formatConversation req.messages = Except.ok conv)
    (hg : generate req.model conv = Except.ok frags) :
    ∃ env : Json,
      create_chat_completion clock generate req = Response.envelope env ∧
      objectTag env = some (Json.str "chat.completion") ∧
      modelOf env = some (Json.str req.model) ∧
      choicesLength env = some 1 ∧
      choiceIndex env = some (Json.num 0) ∧
      messageRole env = some "assistant" ∧
      finishReason env = some (Json.str "stop") ∧
      usageField env "prompt_tokens" = some (Json.num 0) ∧
      usageField env "completion_tokens" = some (Json.num 0) ∧
      usageField env "total_tokens" = some (Json.num 0) := by
  refine ⟨response_envelope (clock 0) (clock 1) req.model (String.join frags),
    ?_, rfl, rfl, rfl, rfl, rfl, rfl, rfl, rfl, rfl⟩
  simp [create_chat_completion, hc, hg, hs]

/-- Witness for C3 at a concrete non-streaming request. -/
theorem nonstreaming_envelope_shape_witness :
    wReq3.stream = false ∧
    formatConversation wReq3.messages = Except.ok ["user: Hello"] ∧
    wGen1 wReq3.model ["user: Hello"] = Except.ok ["Hi", " there"] ∧
    ∃ env : Json,
      create_chat_completion testClock wGen1 wReq3 = Response.envelope env ∧
      objectTag env = some (Json.str "chat.completion") ∧
      modelOf env = some (Json.str wReq3.model) ∧
      choicesLength env = some 1 ∧
      choiceIndex env = some (Json.num 0) ∧
      messageRole env = some "assistant" ∧
      finishReason env = some (Json.str "stop") ∧
      usageField env "prompt_tokens" = some (Json.num 0) ∧
      usageField env "completion_tokens" = some (Json.num 0) ∧
      usageField env "total_tokens" = some (Json.num 0) :=
  ⟨rfl, rfl, rfl,
    nonstreaming_envelope_shape testClock wGen1 wReq3 ["user: Hello"] ["Hi", " there"]
      rfl rfl rfl⟩

/-- C4. For every messages list whose entries all contain `role` and
`content` keys, the projection handed to the generator maps each message to
the single line formed of the role, a colon and a space, and the content,
and preserves message order; in particular projecting the single user
message with content `hi` yields exactly the one-element sequence
`["user: hi"]`. -/
theorem projection_formats_messages (ms : List (List (String × String)))
    (h : ∀ m ∈ ms, (m.lookup "role").isSome ∧ (m.lookup "content").isSome) :
    formatConversation ms = Except.ok (ms.map fun m =>
      ((m.lookup "role").getD "") ++ ": " ++ ((m.lookup "content").getD "")) ∧
    formatConversation [[("role", "user"), ("content", "hi")]] =
      Except.ok ["user: hi"] :=
  ⟨formatConversation_ok ms h, rfl⟩

/-- Witness for C4 at a two-message list. -/
theorem projection_formats_messages_witness :
    (∀ m ∈ [[("role", "system"), ("content", "be brief")],
            [("role", "user"), ("content", "hi")]],
      (List.lookup "role" m).isSome ∧ (List.lookup "content" m).isSome) ∧
    (formatConversation [[("role", "system"), ("content", "be brief")],
        [("role", "user"), ("content", "hi")]] =
      Except.ok ["system: be brief", "user: hi"] ∧
    formatConversation [[("role", "user"), ("content", "hi")]] =
      Except.ok ["user: hi"]) :=
  ⟨by decide,
    projection_formats_messages
      [[("role", "system"), ("content", "be brief")],
       [("role", "user"), ("content", "hi")]] (by decide)⟩

/-- C5. For every request, if the generator raises an exception during
generation (whether stream is true or false), the endpoint returns status
500 with a JSON body containing a non-empty detail string carrying the
textual description of the underlying error.  (The guarded block of the
handler wraps both branches; `errorBody` is the rendering of the 500 by
the framework.) -/
theorem generator_failure_500 (clock : Clock) (generate : Gen)
    (req : ChatCompletionRequest) (conv : List String) (e : String)
    (hc : formatConversation req.messages = Except.ok conv)
    (hg : generate req.model conv = Except.error e)
    (he : e ≠ "") :
    create_chat_completion clock generate req = Response.error 500 e ∧
    (errorBody e).getField "detail" = some (Json.str e) ∧ e ≠ "" := by
  refine ⟨?_, rfl, he⟩
  simp [create_chat_completion, hc, hg]

/-- Witness for C5 at a concrete failing generator, streaming mode. -/
theorem generator_failure_500_witness :
    formatConversation wReq1.messages = Except.ok ["user: Hello"] ∧
    wGenErr wReq1.model ["user: Hello"] = Except.error "model not found" ∧
    "model not found" ≠ "" ∧
    (create_chat_completion testClock wGenErr wReq1 =
        Response.error 500 "model not found" ∧
      (errorBody "model not found").getField "detail" =
        some (Json.str "model not found") ∧
      "model not found" ≠ "") :=
  ⟨rfl, rfl, by decide,
    generator_failure_500 testClock wGenErr wReq1 ["user: Hello"] "model not found"
      rfl rfl (by decide)⟩

/-- C6. For every valid non-streaming request, the message content of the
envelope equals the concatenation of all fragments yielded by the
generator, in order, with no separator inserted between fragments; in
particular for the example request (model llama, one user message with
content Hello, stream false) with the generator yielding the fragments
`"Hi"` and `" there"`, the envelope content equals `"Hi there"`. -/
theorem nonstream_content_is_join (clock : Clock) (generate : Gen)
    (req : ChatCompletionRequest) (conv frags : List String)
    (hs : req.stream = false)
    (hc : formatConversation req.messages = Except.ok conv)
    (hg : generate req.model conv = Except.ok frags) :
    (∃ env : Json,
      create_chat_completion clock generate req = Response.envelope env ∧
      messageContent env = some (String.join frags)) ∧
    (∃ env : Json,
      create_chat_completion testClock wGen1 wReq3 = Response.envelope env ∧
      messageContent env = some "Hi there") := by
  constructor
  · refine ⟨response_envelope (clock 0) (clock 1) req.model (String.join frags),
      ?_, messageContent_response_envelope _ _ _ _⟩
    simp [create_chat_completion, hc, hg, hs]
  · exact ⟨response_envelope (testClock 0) (testClock 1) "llama" "Hi there", rfl, rfl⟩

/-- Witness for C6 at the example request of the spec. -/
theorem nonstream_content_is_join_witness :
    wReq3.stream = false ∧
    formatConversation wReq3.messages = Except.ok ["user: Hello"] ∧
    wGen1 wReq3.model ["user: Hello"] = Except.ok ["Hi", " there"] ∧
    ((∃ env : Json,
      create_chat_completion testClock wGen1 wReq3 = Response.envelope env ∧
      messageContent env = some (String.join ["Hi", " there"])) ∧
    (∃ env : Json,
      create_chat_completion testClock wGen1 wReq3 = Response.envelope env ∧
      messageContent env = some "Hi there")) :=
  ⟨rfl, rfl, rfl,
    nonstream_content_is_join testClock wGen1 wReq3 ["user: Hello"] ["Hi", " there"]
      rfl rfl rfl⟩

/-- C7. Every response envelope and every streaming chunk receives an
identifier equal to the fixed prefix `chatcmpl-` concatenated with the
current time value at the moment of the construction of that record (the
k-th chunk uses the 2k-th clock reading of the request, the envelope uses
reading 0) with its decimal separator removed (`mkId`); and no uniqueness
is enforced across identifiers: two distinct records of one stream can
share an id (under a constant clock), so ids are neither unique nor
strictly monotonic. -/
theorem identifier_scheme (clock : Clock) (generate : Gen) (model : String)
    (messages : List (List (String × String))) (conv frags : List String)
    (hc : formatConversation messages = Except.ok conv)
    (hg : generate model conv = Except.ok frags) :
    (∃ chunks : List Json,
      create_chat_completion clock generate ⟨model, messages, true⟩ =
        Response.stream (chunks.map dataFrame ++ [doneFrame]) ∧
      chunks.length = frags.length + 1 ∧
      ∀ (k : Nat) (c : Json), chunks[k]? = some c →
        idOf c = some (mkId (clock (2 * k)))) ∧
    (∃ env : Json,
      create_chat_completion clock generate ⟨model, messages, false⟩ =
        Response.envelope env ∧ idOf env = some (mkId (clock 0))) ∧
    (∃ (c0 : Clock) (m : String) (fs : List String) (d1 d2 : Json),
      streamChunks c0 m fs = [d1, d2] ∧ finishReason d1 ≠ finishReason d2 ∧
      idOf d1 = idOf d2) := by
  refine ⟨⟨streamChunks clock model frags, ?_, ?_, ?_⟩, ?_, ?_⟩
  · simp [create_chat_completion, hc, hg, stream_response]
  · simp [streamChunks, fragmentChunks_length]
  · exact streamChunks_idOf clock model frags
  · exact ⟨response_envelope (clock 0) (clock 1) model (String.join frags),
      by simp [create_chat_completion, hc, hg], idOf_response_envelope _ _ _ _⟩
  · refine ⟨fun _ => ⟨"42.0", 42⟩, "m", ["a"], _, _, rfl, ?_, rfl⟩
    simp [finishReason_response_chunk, finishReason_final_chunk]

/-- Witness for C7 at a concrete request and clock. -/
theorem identifier_scheme_witness :
    formatConversation [[("role", "user"), ("content", "Hello")]] =
      Except.ok ["user: Hello"] ∧
    wGen1 "llama" ["user: Hello"] = Except.ok ["Hi", " there"] ∧
    ((∃ chunks : List Json,
      create_chat_completion testClock wGen1
          ⟨"llama", [[("role", "user"), ("content", "Hello")]], true⟩ =
        Response.stream (chunks.map dataFrame ++ [doneFrame]) ∧
      chunks.length = 2 + 1 ∧
      ∀ (k : Nat) (c : Json), chunks[k]? = some c →
        idOf c = some (mkId (testClock (2 * k)))) ∧
    (∃ env : Json,
      create_chat_completion testClock wGen1
          ⟨"llama", [[("role", "user"), ("content", "Hello")]], false⟩ =
        Response.envelope env ∧ idOf env = some (mkId (testClock 0))) ∧
    (∃ (c0 : Clock) (m : String) (fs : List String) (d1 d2 : Json),
      streamChunks c0 m fs = [d1, d2] ∧ finishReason d1 ≠ finishReason d2 ∧
      idOf d1 = idOf d2)) :=
  ⟨rfl, rfl,
    identifier_scheme testClock wGen1 "llama"
      [[("role", "user"), ("content", "Hello")]] ["user: Hello"] ["Hi", " there"]
      rfl rfl⟩

/-- C8. For every request containing some message that lacks a required
key (`role` or `content`), the adapter does not reject the message itself
by validation; the projection step fails (with the KeyError text as the
detail) and the request as a whole is surfaced as the single generic 500
error — never a partial or successful response. -/
theorem malformed_message_fails_request (clock : Clock) (generate : Gen)
    (req : ChatCompletionRequest)
    (h : ∃ m ∈ req.messages,
      (m.lookup "role").isNone ∨ (m.lookup "content").isNone) :
    ∃ d, create_chat_completion clock generate req = Response.error 500 d ∧
      (d = "\x27role\x27" ∨ d = "\x27content\x27") := by
  obtain ⟨d, hd, hdk⟩ := formatConversation_error_of_malformed req.messages h
  exact ⟨d, by simp [create_chat_completion, hd], hdk⟩

/-- Witness for C8: the second message lacks `content`. -/
theorem malformed_message_fails_request_witness :
    (∃ m ∈ [[("role", "user"), ("content", "Hello")], [("role", "user")]],
      (List.lookup "role" m).isNone ∨ (List.lookup "content" m).isNone) ∧
    ∃ d, create_chat_completion testClock wGen1
        ⟨"llama", [[("role", "user"), ("content", "Hello")], [("role", "user")]],
          false⟩ = Response.error 500 d ∧
      (d = "\x27role\x27" ∨ d = "\x27content\x27") :=
  ⟨by decide,
    malformed_message_fails_request testClock wGen1
      ⟨"llama", [[("role", "user"), ("content", "Hello")], [("role", "user")]],
        false⟩ (by decide)⟩

/-- C9. When the generator yields zero fragments, the streaming path still
emits exactly two frames — the terminal chunk with empty delta and finish
reason `"stop"`, then the sentinel — and the non-streaming path returns a
normal envelope whose message content is the empty string with finish
reason still `"stop"`; neither path treats an empty fragment sequence as an
error. -/
theorem empty_generator_ok (clock : Clock) (generate : Gen) (model : String)
    (messages : List (List (String × String))) (conv : List String)
    (hc : formatConversation messages = Except.ok conv)
    (hg : generate model conv = Except.ok []) :
    (∃ frames : List String,
      create_chat_completion clock generate ⟨model, messages, true⟩ =
        Response.stream frames ∧
      frames.length = 2 ∧
      (∃ frame, frames[0]? = some frame ∧ TerminalFrame frame) ∧
      frames[1]? = some doneFrame) ∧
    (∃ env : Json,
      create_chat_completion clock generate ⟨model, messages, false⟩ =
        Response.envelope env ∧
      messageContent env = some "" ∧
      finishReason env = some (Json.str "stop")) := by
  constructor
  · refine ⟨stream_response clock model [], ?_, rfl, ?_, rfl⟩
    · simp [create_chat_completion, hc, hg]
    · exact ⟨dataFrame (final_chunk (clock 0) (clock 1) model), rfl,
        ⟨_, rfl, objectTag_final_chunk _ _ _, deltaObj_final_chunk _ _ _,
          finishReason_final_chunk _ _ _⟩⟩
  · refine ⟨response_envelope (clock 0) (clock 1) model "", ?_, rfl, rfl⟩
    simp [create_chat_completion, hc, hg, String.join]

/-- Witness for C9 at an empty-yield generator. -/
theorem empty_generator_ok_witness :
    formatConversation [[("role", "user"), ("content", "Hello")]] =
      Except.ok ["user: Hello"] ∧
    (fun _ _ => Except.ok [] : Gen) "llama" ["user: Hello"] = Except.ok [] ∧
    ((∃ frames : List String,
      create_chat_completion testClock (fun _ _ => Except.ok [])
          ⟨"llama", [[("role", "user"), ("content", "Hello")]], true⟩ =
        Response.stream frames ∧
      frames.length = 2 ∧
      (∃ frame, frames[0]? = some frame ∧ TerminalFrame frame) ∧
      frames[1]? = some doneFrame) ∧
    (∃ env : Json,
      create_chat_completion testClock (fun _ _ => Except.ok [])
          ⟨"llama", [[("role", "user"), ("content", "Hello")]], false⟩ =
        Response.envelope env ∧
      messageContent env = some "" ∧
      finishReason env = some (Json.str "stop"))) :=
  ⟨rfl, rfl,
    empty_generator_ok testClock (fun _ _ => Except.ok []) "llama"
      [[("role", "user"), ("content", "Hello")]] ["user: Hello"] rfl rfl⟩

/-- C10. For a fixed clock value and a fixed generator fragment sequence,
two invocations of `create_chat_completion` on the same request produce
identical outputs; the response at any position of any request sequence
depends only on the clock, generator and body of that request — not on any
state retained across requests. -/
theorem handler_is_stateless (l1 l2 : List (Clock × Gen × ChatCompletionRequest))
    (i j : Nat) (hi : i < l1.length) (hj : j < l2.length)
    (h : l1[i] = l2[j]) :
    (handleAll l1)[i]? = (handleAll l2)[j]? := by
  rw [handleAll, handleAll, List.getElem?_map, List.getElem?_map,
    List.getElem?_eq_getElem hi, List.getElem?_eq_getElem hj, h]

/-- Witness for C10: the same instance handled alone and handled after a
different request yields the same response. -/
theorem handler_is_stateless_witness :
    0 < [wInst].length ∧ 1 < [wInstErr, wInst].length ∧
    [wInst][0] = [wInstErr, wInst][1] ∧
    (handleAll [wInst])[0]? = (handleAll [wInstErr, wInst])[1]? :=
  ⟨by simp, by simp, rfl,
    handler_is_stateless [wInst] [wInstErr, wInst] 0 1 (by simp) (by simp) rfl⟩
